import Mathlib

/-!
Verification of `apps/assets/api/asset.py` (jumpserver asset API layer).

The file embeds the data model and the request handlers of the asset API:
`AssetViewSet.get_queryset` (conditional query-parameter filtering),
`AssetRefreshHardwareApi.retrieve` and `AssetAdminUserTestApi.retrieve`
(delegation to background operations), and the permission classes declared
on each endpoint.  Querysets are modelled as lists of assets; `filter`
keeps the assets for which the translated ORM predicate holds.  A query
parameter is `none` when it is absent from the request or empty (both are
falsy in the source's `if param:` tests), and `some v` when supplied.
`get_object_or_404` is modelled by a lookup returning `Except`, the
`Http404` exception being the error case.
-/

namespace AssetApi

/-- An asset record.  `clusterId` is the cluster foreign key (`cluster__id`),
`groupIds` the many-to-many group ids (`groups__id`), and `nodeKeys` the keys
of the nodes the asset is attached to (`nodes__key`). -/
structure Asset where
  id : Nat
  clusterId : Option Nat
  groupIds : List Nat
  nodeKeys : List String
  deriving Repr, DecidableEq

/-- An admin user: `assetIds` are the ids of `admin_user.asset_set.all()`,
`clusterIds` the ids of `admin_user.cluster_set.all()`. -/
structure AdminUser where
  id : Nat
  assetIds : List Nat
  clusterIds : List Nat
  deriving Repr, DecidableEq

/-- A system user.  `clusterIds` holds the ids of the clusters returned by
`system_user.get_clusters()`; `assetIds` holds ids of assets directly
associated with the system user (not consulted by the filter in the source). -/
structure SystemUser where
  id : Nat
  assetIds : List Nat
  clusterIds : List Nat
  deriving Repr, DecidableEq

/-- Modelled from the spec: `SystemUser.get_clusters()` is defined in the
models module, which is not part of this file set; the spec describes it as
producing the system user's cluster set, so it is modelled as returning the
stored cluster ids. -/
def SystemUser.get_clusters (su : SystemUser) : List Nat :=
  su.clusterIds

/-- A node of the asset tree, with its hierarchical `key` string. -/
structure Node where
  id : Nat
  key : String
  deriving Repr, DecidableEq

/-- The database visible to the handlers. -/
structure DB where
  assets : List Asset
  adminUsers : List AdminUser
  systemUsers : List SystemUser
  nodes : List Node
  deriving Repr, DecidableEq

/-- The `Http404` exception raised by `get_object_or_404`. -/
inductive HttpErr where
  | http404
  deriving Repr, DecidableEq

/-- Django's `get_object_or_404`: the first record matching the predicate, or
`Http404` when there is none. -/
def get_object_or_404 {α : Type} (records : List α) (p : α → Bool) :
    Except HttpErr α :=
  match records.find? p with
  | some x => Except.ok x
  | none => Except.error HttpErr.http404

/-- The query parameters read by `AssetViewSet.get_queryset`.  A field is
`none` when the parameter is absent or empty (falsy), `some v` when supplied. -/
structure QueryParams where
  cluster_id : Option Nat
  asset_group_id : Option Nat
  admin_user_id : Option Nat
  system_user_id : Option Nat
  node_id : Option Nat
  deriving Repr, DecidableEq

/-- ORM predicate `cluster__id=cluster_id`. -/
def clusterPred (cid : Nat) (a : Asset) : Bool :=
  a.clusterId == some cid

/-- ORM predicate `groups__id=asset_group_id`. -/
def groupPred (gid : Nat) (a : Asset) : Bool :=
  a.groupIds.contains gid

/-- ORM predicate `Q(cluster__id__in=clusters) | Q(id__in=assets_direct)`
built in the `admin_user_id` branch. -/
def adminUserPred (clusters assets_direct : List Nat) (a : Asset) : Bool :=
  (match a.clusterId with
   | some c => clusters.contains c
   | none => false) || assets_direct.contains a.id

/-- ORM predicate `cluster__in=clusters` built in the `system_user_id`
branch. -/
def systemUserPred (clusters : List Nat) (a : Asset) : Bool :=
  match a.clusterId with
  | some c => clusters.contains c
  | none => false

/-- ORM predicate `nodes__key__startswith=node.key`. -/
def nodePred (key : String) (a : Asset) : Bool :=
  a.nodeKeys.any (fun k => key.isPrefixOf k)

/-- The `if cluster_id:` block of `get_queryset`:
`queryset = queryset.filter(cluster__id=cluster_id)` when supplied. -/
def clusterStep (p : QueryParams) (queryset : List Asset) : List Asset :=
  match p.cluster_id with
  | some cid => queryset.filter (clusterPred cid)
  | none => queryset

/-- The `if asset_group_id:` block of `get_queryset`:
`queryset = queryset.filter(groups__id=asset_group_id)` when supplied. -/
def groupStep (p : QueryParams) (queryset : List Asset) : List Asset :=
  match p.asset_group_id with
  | some gid => queryset.filter (groupPred gid)
  | none => queryset

/-- The `if admin_user_id:` block of `get_queryset`: look the admin user up
(`Http404` on failure), collect `assets_direct` and `clusters`, and filter by
`Q(cluster__id__in=clusters) | Q(id__in=assets_direct)`. -/
def adminUserStep (db : DB) (p : QueryParams) (queryset : List Asset) :
    Except HttpErr (List Asset) :=
  match p.admin_user_id with
  | some i => do
      let admin_user ← get_object_or_404 db.adminUsers (fun u => u.id == i)
      let assets_direct := admin_user.assetIds
      let clusters := admin_user.clusterIds
      pure (queryset.filter (adminUserPred clusters assets_direct))
  | none => pure queryset

/-- The `if system_user_id:` block of `get_queryset`: look the system user up
(`Http404` on failure), take `clusters = system_user.get_clusters()`, and
filter by `cluster__in=clusters`. -/
def systemUserStep (db : DB) (p : QueryParams) (queryset : List Asset) :
    Except HttpErr (List Asset) :=
  match p.system_user_id with
  | some i => do
      let system_user ← get_object_or_404 db.systemUsers (fun u => u.id == i)
      let clusters := system_user.get_clusters
      pure (queryset.filter (systemUserPred clusters))
  | none => pure queryset

/-- The `if node_id:` block of `get_queryset`: look the node up (`Http404` on
failure) and filter by `nodes__key__startswith=node.key`. -/
def nodeStep (db : DB) (p : QueryParams) (queryset : List Asset) :
    Except HttpErr (List Asset) :=
  match p.node_id with
  | some i => do
      let node ← get_object_or_404 db.nodes (fun n => n.id == i)
      pure (queryset.filter (nodePred node.key))
  | none => pure queryset

/-- `AssetViewSet.get_queryset`: the base queryset passed through each of the
five conditional blocks of the source, in source order. -/
def AssetViewSet.get_queryset (db : DB) (p : QueryParams) :
    Except HttpErr (List Asset) := do
  let queryset := db.assets
  let queryset := clusterStep p queryset
  let queryset := groupStep p queryset
  let queryset ← adminUserStep db p queryset
  let queryset ← systemUserStep db p queryset
  let queryset ← nodeStep db p queryset
  return queryset

/-- Bodies of the HTTP responses the two action endpoints build. -/
inductive RespBody where
  /-- `{"msg": "ok"}` -/
  | msgOk
  /-- `{"msg": "pong"}` -/
  | msgPong
  /-- `summary['dark'].values()` -/
  | darkValues (vs : List String)
  /-- `{"error": msg}` -/
  | errorMsg (m : String)
  deriving Repr, DecidableEq

/-- A DRF `Response`: body and HTTP status (200 when the source omits it). -/
structure Response where
  body : RespBody
  status : Nat
  deriving Repr, DecidableEq

/-- The summary part of what `update_asset_hardware_info_manual` returns:
`dark` maps failed host names to messages; `summary.get('dark')` is falsy
exactly when the list is empty. -/
structure Summary where
  dark : List (String × String)
  deriving Repr, DecidableEq

/-- `AssetRefreshHardwareApi.retrieve`: look the asset up by `pk`, run the
hardware-probing task (`update_asset_hardware_info_manual(asset)[1]` is the
summary), answer 501 with the dark values when `dark` is non-empty, else
`{"msg": "ok"}` with 200. -/
def AssetRefreshHardwareApi.retrieve (db : DB)
    (update_asset_hardware_info_manual : Asset → Unit × Summary)
    (pk : Nat) : Except HttpErr Response := do
  let asset ← get_object_or_404 db.assets (fun a => a.id == pk)
  let summary := (update_asset_hardware_info_manual asset).2
  if !summary.dark.isEmpty then
    return { body := RespBody.darkValues (summary.dark.map Prod.snd),
             status := 501 }
  else
    return { body := RespBody.msgOk, status := 200 }

/-- `AssetAdminUserTestApi.retrieve`: look the asset up by `pk`, run the
connectivity test, answer `{"msg": "pong"}` with 200 on success, else
`{"error": msg}` with 502. -/
def AssetAdminUserTestApi.retrieve (db : DB)
    (test_asset_connectability_manual : Asset → Bool × String)
    (pk : Nat) : Except HttpErr Response := do
  let asset ← get_object_or_404 db.assets (fun a => a.id == pk)
  let r := test_asset_connectability_manual asset
  if r.1 then
    return { body := RespBody.msgPong, status := 200 }
  else
    return { body := RespBody.errorMsg r.2, status := 502 }

/-- All `get_object_or_404` lookups that `get_queryset` would perform for
these parameters succeed. -/
def lookupsOk (db : DB) (p : QueryParams) : Bool :=
  (p.admin_user_id.all fun i => (db.adminUsers.find? fun u => u.id == i).isSome) &&
  (p.system_user_id.all fun i => (db.systemUsers.find? fun u => u.id == i).isSome) &&
  (p.node_id.all fun i => (db.nodes.find? fun n => n.id == i).isSome)

/-- The cluster conjunct: the cluster filter when `cluster_id` is supplied,
the identity (`true`) otherwise. -/
def clusterCond (p : QueryParams) (a : Asset) : Bool :=
  match p.cluster_id with
  | some cid => clusterPred cid a
  | none => true

/-- The group conjunct: the group filter when `asset_group_id` is supplied,
the identity otherwise. -/
def groupCond (p : QueryParams) (a : Asset) : Bool :=
  match p.asset_group_id with
  | some gid => groupPred gid a
  | none => true

/-- The admin-user conjunct, in terms of the record the lookup would find. -/
def adminCond (db : DB) (p : QueryParams) (a : Asset) : Bool :=
  match p.admin_user_id with
  | some i =>
    match db.adminUsers.find? fun u => u.id == i with
    | some au => adminUserPred au.clusterIds au.assetIds a
    | none => true
  | none => true

/-- The system-user conjunct, in terms of the record the lookup would find. -/
def systemCond (db : DB) (p : QueryParams) (a : Asset) : Bool :=
  match p.system_user_id with
  | some i =>
    match db.systemUsers.find? fun u => u.id == i with
    | some su => systemUserPred su.get_clusters a
    | none => true
  | none => true

/-- The node conjunct, in terms of the node the lookup would find. -/
def nodeCond (db : DB) (p : QueryParams) (a : Asset) : Bool :=
  match p.node_id with
  | some i =>
    match db.nodes.find? fun n => n.id == i with
    | some nd => nodePred nd.key a
    | none => true
  | none => true

/-- The conjunction of the five conditional filter predicates. -/
def condPred (db : DB) (p : QueryParams) (a : Asset) : Bool :=
  clusterCond p a && groupCond p a && adminCond db p a &&
    systemCond db p a && nodeCond db p a

theorem clusterStep_eq (p : QueryParams) (qs : List Asset) :
    clusterStep p qs = qs.filter (fun a => clusterCond p a) := by
  cases h : p.cluster_id <;> simp [clusterStep, clusterCond, h]

theorem groupStep_eq (p : QueryParams) (qs : List Asset) :
    groupStep p qs = qs.filter (fun a => groupCond p a) := by
  cases h : p.asset_group_id <;> simp [groupStep, groupCond, h]

theorem adminUserStep_eq (db : DB) (p : QueryParams) (qs : List Asset) :
    adminUserStep db p qs =
      (if p.admin_user_id.all
          (fun i => (db.adminUsers.find? fun u => u.id == i).isSome) then
         Except.ok (qs.filter (fun a => adminCond db p a))
       else
         Except.error HttpErr.http404) := by
  cases had : p.admin_user_id with
  | none => simp [adminUserStep, adminCond, had, Option.all, pure, Except.pure]
  | some i =>
    cases hf : db.adminUsers.find? fun u => u.id == i <;>
      simp [adminUserStep, adminCond, had, hf, get_object_or_404, Option.all]

theorem systemUserStep_eq (db : DB) (p : QueryParams) (qs : List Asset) :
    systemUserStep db p qs =
      (if p.system_user_id.all
          (fun i => (db.systemUsers.find? fun u => u.id == i).isSome) then
         Except.ok (qs.filter (fun a => systemCond db p a))
       else
         Except.error HttpErr.http404) := by
  cases hs : p.system_user_id with
  | none => simp [systemUserStep, systemCond, hs, Option.all, pure, Except.pure]
  | some i =>
    cases hf : db.systemUsers.find? fun u => u.id == i <;>
      simp [systemUserStep, systemCond, hs, hf, get_object_or_404, Option.all]

theorem nodeStep_eq (db : DB) (p : QueryParams) (qs : List Asset) :
    nodeStep db p qs =
      (if p.node_id.all
          (fun i => (db.nodes.find? fun n => n.id == i).isSome) then
         Except.ok (qs.filter (fun a => nodeCond db p a))
       else
         Except.error HttpErr.http404) := by
  cases hn : p.node_id with
  | none => simp [nodeStep, nodeCond, hn, Option.all, pure, Except.pure]
  | some i =>
    cases hf : db.nodes.find? fun n => n.id == i <;>
      simp [nodeStep, nodeCond, hn, hf, get_object_or_404, Option.all]

/-- Normal form of `get_queryset`: when every lookup succeeds it returns the
base queryset filtered by the conjunction of the conditional predicates, and
otherwise it raises `Http404`. -/
theorem get_queryset_spec (db : DB) (p : QueryParams) :
    AssetViewSet.get_queryset db p =
      (if lookupsOk db p then
         Except.ok (db.assets.filter (fun a => condPred db p a))
       else
         Except.error HttpErr.http404) := by
  unfold AssetViewSet.get_queryset lookupsOk
  simp only [clusterStep_eq, groupStep_eq, adminUserStep_eq, systemUserStep_eq,
    nodeStep_eq]
  cases hA : p.admin_user_id.all
      (fun i => (db.adminUsers.find? fun u => u.id == i).isSome) <;>
  cases hS : p.system_user_id.all
      (fun i => (db.systemUsers.find? fun u => u.id == i).isSome) <;>
  cases hN : p.node_id.all
      (fun i => (db.nodes.find? fun n => n.id == i).isSome) <;>
    simp [Except.bind, bind]
  refine congrArg Except.ok ?_
  refine List.filter_congr fun a _ => ?_
  simp [condPred, Bool.and_comm, Bool.and_left_comm, Bool.and_assoc]

/-- A requesting user, with the attributes the permission classes consult. -/
structure User where
  isSuperuser : Bool
  isAppUser : Bool
  isValid : Bool
  deriving Repr, DecidableEq

/-- Modelled from the spec: `IsSuperUser` is imported from `assets.hands`,
which is not in this file set; per the spec it requires a superuser. -/
def IsSuperUser (u : User) : Bool :=
  u.isSuperuser

/-- Modelled from the spec: `IsValidUser` is imported from `assets.hands`,
which is not in this file set; per the spec it requires only a valid user. -/
def IsValidUser (u : User) : Bool :=
  u.isValid

/-- Modelled from the spec: `IsSuperUserOrAppUser` is imported from
`assets.hands`, which is not in this file set; per the spec it requires a
superuser or an app user. -/
def IsSuperUserOrAppUser (u : User) : Bool :=
  u.isSuperuser || u.isAppUser

/-- `permission_classes = (IsSuperUserOrAppUser,)` on `AssetViewSet`. -/
def AssetViewSet.permClass : User → Bool :=
  IsSuperUserOrAppUser

/-- `permission_classes = (IsValidUser,)` on `UserAssetListView`. -/
def UserAssetListView.permClass : User → Bool :=
  IsValidUser

/-- `permission_classes = (IsSuperUser,)` on `AssetListUpdateApi`. -/
def AssetListUpdateApi.permClass : User → Bool :=
  IsSuperUser

/-- `permission_classes = (IsSuperUser,)` on `AssetRefreshHardwareApi`. -/
def AssetRefreshHardwareApi.permClass : User → Bool :=
  IsSuperUser

/-- `permission_classes = (IsSuperUser,)` on `AssetAdminUserTestApi`. -/
def AssetAdminUserTestApi.permClass : User → Bool :=
  IsSuperUser

/-- Modelled from the spec: the REST framework's dispatch (not in this file
set) runs `check_permissions` against the declared permission classes before
invoking the handler, and answers 403 without invoking it when the check
fails. -/
def dispatch {α : Type} (perm : User → Bool) (handler : Unit → α)
    (u : User) : Option α :=
  if perm u then some (handler ()) else none

/-- Stated from the claim: the asset's cluster belongs to the given set of
cluster ids ("its cluster belongs to the set of clusters"). -/
def clusterBelongs (clusters : List Nat) (a : Asset) : Bool :=
  match a.clusterId with
  | some c => clusters.contains c
  | none => false

/-- Fixture: an asset in cluster 5, in group 3, attached to node key "1:2". -/
def exAsset7 : Asset := ⟨7, some 5, [3], ["1:2"]⟩

/-- Fixture: an asset in cluster 6, attached to node key "1:20". -/
def exAsset8 : Asset := ⟨8, some 6, [], ["1:20"]⟩

/-- Fixture: an asset in cluster 6 with no groups and no nodes. -/
def exAsset9 : Asset := ⟨9, some 6, [], []⟩

/-- Fixture: an admin user with direct asset 7 and no clusters. -/
def exAdmin : AdminUser := ⟨1, [7], []⟩

/-- Fixture: a system user with direct asset 9 and cluster set `[5]`. -/
def exSystemUser : SystemUser := ⟨2, [9], [5]⟩

/-- Fixture: a node with key "1:2". -/
def exNode : Node := ⟨4, "1:2"⟩

/-- Fixture database for the witnesses below. -/
def exDB : DB := ⟨[exAsset7, exAsset8, exAsset9], [exAdmin], [exSystemUser], [exNode]⟩

/-- Fixture: all five query parameters supplied, every lookup succeeding. -/
def exPAll : QueryParams := ⟨some 5, some 3, some 1, some 2, some 4⟩

/-- Fixture: only `admin_user_id` supplied. -/
def exPAdmin : QueryParams := ⟨none, none, some 1, none, none⟩

/-- Fixture: only `system_user_id` supplied. -/
def exPSystem : QueryParams := ⟨none, none, none, some 2, none⟩

/-- Fixture: only `node_id` supplied. -/
def exPNode : QueryParams := ⟨none, none, none, none, some 4⟩

theorem clusterCond_iff (p : QueryParams) (a : Asset) :
    clusterCond p a = true ↔ ∀ cid ∈ p.cluster_id, clusterPred cid a = true := by
  cases h : p.cluster_id <;> simp [clusterCond, h]

theorem groupCond_iff (p : QueryParams) (a : Asset) :
    groupCond p a = true ↔ ∀ gid ∈ p.asset_group_id, groupPred gid a = true := by
  cases h : p.asset_group_id <;> simp [groupCond, h]

theorem adminCond_iff (db : DB) (p : QueryParams) (a : Asset) :
    adminCond db p a = true ↔
      ∀ i ∈ p.admin_user_id, ∀ au : AdminUser,
        (db.adminUsers.find? fun u => u.id == i) = some au →
        adminUserPred au.clusterIds au.assetIds a = true := by
  cases h : p.admin_user_id with
  | none => simp [adminCond, h]
  | some i =>
    cases hf : db.adminUsers.find? fun u => u.id == i <;>
      simp [adminCond, h, hf]

theorem systemCond_iff (db : DB) (p : QueryParams) (a : Asset) :
    systemCond db p a = true ↔
      ∀ i ∈ p.system_user_id, ∀ su : SystemUser,
        (db.systemUsers.find? fun u => u.id == i) = some su →
        systemUserPred su.get_clusters a = true := by
  cases h : p.system_user_id with
  | none => simp [systemCond, h]
  | some i =>
    cases hf : db.systemUsers.find? fun u => u.id == i <;>
      simp [systemCond, h, hf]

theorem nodeCond_iff (db : DB) (p : QueryParams) (a : Asset) :
    nodeCond db p a = true ↔
      ∀ i ∈ p.node_id, ∀ nd : Node,
        (db.nodes.find? fun n => n.id == i) = some nd →
        nodePred nd.key a = true := by
  cases h : p.node_id with
  | none => simp [nodeCond, h]
  | some i =>
    cases hf : db.nodes.find? fun n => n.id == i <;>
      simp [nodeCond, h, hf]

/-- C1: for every request whose lookups succeed, `get_queryset` keeps exactly
the assets passing each of the five filters conditionally on the presence of
its query parameter — the cluster filter exactly when `cluster_id` is
supplied, the group filter exactly when `asset_group_id` is supplied, the
admin-user-derived filter exactly when `admin_user_id` is supplied, the
system-user-derived cluster filter exactly when `system_user_id` is supplied,
the node-key prefix filter exactly when `node_id` is supplied — and no other
filtering is added (an asset passing all supplied filters is kept). -/
theorem C1_conditional_filters (db : DB) (p : QueryParams)
    (h : lookupsOk db p = true) :
    ∃ l, AssetViewSet.get_queryset db p = Except.ok l ∧
      ∀ a : Asset, a ∈ l ↔
        (a ∈ db.assets ∧
         (∀ cid ∈ p.cluster_id, clusterPred cid a = true) ∧
         (∀ gid ∈ p.asset_group_id, groupPred gid a = true) ∧
         (∀ i ∈ p.admin_user_id, ∀ au : AdminUser,
            (db.adminUsers.find? fun u => u.id == i) = some au →
            adminUserPred au.clusterIds au.assetIds a = true) ∧
         (∀ i ∈ p.system_user_id, ∀ su : SystemUser,
            (db.systemUsers.find? fun u => u.id == i) = some su →
            systemUserPred su.get_clusters a = true) ∧
         (∀ i ∈ p.node_id, ∀ nd : Node,
            (db.nodes.find? fun n => n.id == i) = some nd →
            nodePred nd.key a = true)) := by
  refine ⟨db.assets.filter (fun a => condPred db p a), ?_, ?_⟩
  · rw [get_queryset_spec, h]
    simp
  · intro a
    rw [List.mem_filter]
    simp only [condPred, Bool.and_eq_true, clusterCond_iff, groupCond_iff,
      adminCond_iff, systemCond_iff, nodeCond_iff]
    tauto

/-- Witness for C1 at a concrete database and full parameter set. -/
theorem C1_witness : lookupsOk exDB exPAll = true ∧
    ∃ l, AssetViewSet.get_queryset exDB exPAll = Except.ok l ∧
      ∀ a : Asset, a ∈ l ↔
        (a ∈ exDB.assets ∧
         (∀ cid ∈ exPAll.cluster_id, clusterPred cid a = true) ∧
         (∀ gid ∈ exPAll.asset_group_id, groupPred gid a = true) ∧
         (∀ i ∈ exPAll.admin_user_id, ∀ au : AdminUser,
            (exDB.adminUsers.find? fun u => u.id == i) = some au →
            adminUserPred au.clusterIds au.assetIds a = true) ∧
         (∀ i ∈ exPAll.system_user_id, ∀ su : SystemUser,
            (exDB.systemUsers.find? fun u => u.id == i) = some su →
            systemUserPred su.get_clusters a = true) ∧
         (∀ i ∈ exPAll.node_id, ∀ nd : Node,
            (exDB.nodes.find? fun n => n.id == i) = some nd →
            nodePred nd.key a = true)) :=
  ⟨by decide, C1_conditional_filters exDB exPAll (by decide)⟩

/-- C8: when none of the five query parameters is supplied, `get_queryset`
returns the base queryset unchanged — the set of all assets. -/
theorem C8_no_params_identity (db : DB) :
    AssetViewSet.get_queryset db ⟨none, none, none, none, none⟩ =
      Except.ok db.assets := by
  rw [get_queryset_spec]
  simp [lookupsOk, condPred, clusterCond, groupCond, adminCond, systemCond,
    nodeCond, Option.all]

/-- C2 counterexample: with only `admin_user_id` supplied, `get_queryset`
returns an asset (`exAsset7`, kept because it is directly in the admin
user's `asset_set`) whose cluster does not belong to the set of clusters of
the referenced admin user, so "kept exactly when its cluster belongs to the
set of clusters of the referenced admin user" is false as stated. -/
theorem C2_counterexample :
    AssetViewSet.get_queryset exDB exPAdmin = Except.ok [exAsset7] ∧
    (exDB.adminUsers.find? fun u => u.id == 1) = some exAdmin ∧
    clusterBelongs exAdmin.clusterIds exAsset7 = false := by
  refine ⟨?_, by decide, by decide⟩
  rfl

/-- C2 amended: when only `admin_user_id` is supplied and the admin user is
found, an asset is kept exactly when its cluster belongs to the set of
clusters of the referenced admin user OR the asset itself is directly in the
admin user's asset set. -/
theorem C2_admin_user_filter (db : DB) (p : QueryParams) (i : Nat)
    (au : AdminUser)
    (hp : p.admin_user_id = some i)
    (hf : (db.adminUsers.find? fun u => u.id == i) = some au)
    (hc : p.cluster_id = none) (hg : p.asset_group_id = none)
    (hs : p.system_user_id = none) (hn : p.node_id = none) :
    AssetViewSet.get_queryset db p =
      Except.ok (db.assets.filter
        (fun a => clusterBelongs au.clusterIds a || au.assetIds.contains a.id)) := by
  rw [get_queryset_spec]
  have hl : lookupsOk db p = true := by
    simp [lookupsOk, hp, hf, hs, hn, Option.all]
  rw [hl]
  simp only [if_true]
  refine congrArg Except.ok (List.filter_congr fun a _ => ?_)
  simp [condPred, clusterCond, groupCond, adminCond, systemCond, nodeCond,
    hp, hf, hc, hg, hs, hn, adminUserPred, clusterBelongs]

/-- Witness for the amended C2 at the fixture database. -/
theorem C2_witness :
    AssetViewSet.get_queryset exDB exPAdmin =
      Except.ok (exDB.assets.filter
        (fun a => clusterBelongs exAdmin.clusterIds a ||
          exAdmin.assetIds.contains a.id)) :=
  C2_admin_user_filter exDB exPAdmin 1 exAdmin rfl (by decide) rfl rfl rfl rfl

/-- C3: when only `node_id` is supplied and the node is found, `get_queryset`
keeps exactly the assets attached to some node whose key string starts with
the found node's key; in particular every asset attached to the node itself
or to any node whose key extends the node's key is included. -/
theorem C3_node_filter (db : DB) (p : QueryParams) (i : Nat) (nd : Node)
    (hp : p.node_id = some i)
    (hf : (db.nodes.find? fun n => n.id == i) = some nd)
    (hc : p.cluster_id = none) (hg : p.asset_group_id = none)
    (ha : p.admin_user_id = none) (hs : p.system_user_id = none) :
    ∃ l, AssetViewSet.get_queryset db p = Except.ok l ∧
      (∀ a : Asset, a ∈ l ↔
        a ∈ db.assets ∧ ∃ k ∈ a.nodeKeys, nd.key.isPrefixOf k = true) ∧
      (∀ a ∈ db.assets, ∀ k ∈ a.nodeKeys, nd.key.isPrefixOf k = true → a ∈ l) := by
  refine ⟨db.assets.filter (fun a => condPred db p a), ?_, ?_, ?_⟩
  · have hl : lookupsOk db p = true := by
      simp [lookupsOk, hp, hf, ha, hs, Option.all]
    rw [get_queryset_spec, hl]
    simp
  · intro a
    rw [List.mem_filter]
    simp [condPred, clusterCond, groupCond, adminCond, systemCond, nodeCond,
      hp, hf, hc, hg, ha, hs, nodePred, List.any_eq_true]
  · intro a hmem k hk hpre
    rw [List.mem_filter]
    refine ⟨hmem, ?_⟩
    simp [condPred, clusterCond, groupCond, adminCond, systemCond, nodeCond,
      hp, hf, hc, hg, ha, hs, nodePred, List.any_eq_true]
    exact ⟨k, hk, hpre⟩

/-- Witness for C3 at the fixture database: node key "1:2" matches both the
asset attached to node "1:2" itself and the one attached to "1:20". -/
theorem C3_witness :
    ∃ l, AssetViewSet.get_queryset exDB exPNode = Except.ok l ∧
      (∀ a : Asset, a ∈ l ↔
        a ∈ exDB.assets ∧ ∃ k ∈ a.nodeKeys, exNode.key.isPrefixOf k = true) ∧
      (∀ a ∈ exDB.assets, ∀ k ∈ a.nodeKeys,
        exNode.key.isPrefixOf k = true → a ∈ l) :=
  C3_node_filter exDB exPNode 4 exNode rfl (by decide) rfl rfl rfl rfl

/-- C7: when only `system_user_id` is supplied and the system user is found,
`get_queryset` keeps exactly the assets whose cluster belongs to the set of
clusters returned by `get_clusters()`; an asset directly associated with the
system user whose cluster is outside those clusters is not included. -/
theorem C7_system_user_filter (db : DB) (p : QueryParams) (i : Nat)
    (su : SystemUser)
    (hp : p.system_user_id = some i)
    (hf : (db.systemUsers.find? fun u => u.id == i) = some su)
    (hc : p.cluster_id = none) (hg : p.asset_group_id = none)
    (ha : p.admin_user_id = none) (hn : p.node_id = none) :
    ∃ l, AssetViewSet.get_queryset db p = Except.ok l ∧
      (∀ a : Asset, a ∈ l ↔
        a ∈ db.assets ∧ clusterBelongs su.get_clusters a = true) ∧
      (∀ a : Asset, su.assetIds.contains a.id = true →
        clusterBelongs su.get_clusters a = false → a ∉ l) := by
  have hiff : ∀ a : Asset,
      a ∈ db.assets.filter (fun x => condPred db p x) ↔
        a ∈ db.assets ∧ clusterBelongs su.get_clusters a = true := by
    intro a
    rw [List.mem_filter]
    have hpred : condPred db p a = clusterBelongs su.get_clusters a := by
      simp only [condPred, clusterCond, groupCond, adminCond, systemCond,
        nodeCond, hp, hf, hc, hg, ha, hn]
      cases a.clusterId <;>
        simp [systemUserPred, clusterBelongs, SystemUser.get_clusters]
    rw [hpred]
  refine ⟨db.assets.filter (fun x => condPred db p x), ?_, hiff, ?_⟩
  · have hl : lookupsOk db p = true := by
      simp [lookupsOk, hp, hf, ha, hn, Option.all]
    rw [get_queryset_spec, hl]
    simp
  · intro a _ hout hmem
    have hin := (hiff a).mp hmem
    rw [hin.2] at hout
    exact Bool.noConfusion hout

/-- Witness for C7 at the fixture database: asset 9 is directly associated
with the system user but its cluster 6 is outside the cluster set `[5]`. -/
theorem C7_witness :
    ∃ l, AssetViewSet.get_queryset exDB exPSystem = Except.ok l ∧
      (∀ a : Asset, a ∈ l ↔
        a ∈ exDB.assets ∧
          clusterBelongs exSystemUser.get_clusters a = true) ∧
      (∀ a : Asset, exSystemUser.assetIds.contains a.id = true →
        clusterBelongs exSystemUser.get_clusters a = false → a ∉ l) :=
  C7_system_user_filter exDB exPSystem 2 exSystemUser rfl (by decide) rfl rfl
    rfl rfl

/-- C4: for every asset found by pk, `AssetRefreshHardwareApi.retrieve`
delegates to the hardware-probing operation once and maps its summary
directly to a response: the dark entry's values with status 501 when the
summary's `dark` entry is non-empty, `{"msg": "ok"}` with status 200
otherwise; no retry or other recovery is performed (the response is a pure
function of that single summary). -/
theorem C4_refresh_hardware (db : DB)
    (update_asset_hardware_info_manual : Asset → Unit × Summary)
    (pk : Nat) (asset : Asset)
    (hf : (db.assets.find? fun a => a.id == pk) = some asset) :
    AssetRefreshHardwareApi.retrieve db update_asset_hardware_info_manual pk =
      Except.ok
        (if (update_asset_hardware_info_manual asset).2.dark.isEmpty then
           ⟨RespBody.msgOk, 200⟩
         else
           ⟨RespBody.darkValues
             ((update_asset_hardware_info_manual asset).2.dark.map Prod.snd),
            501⟩) := by
  rw [AssetRefreshHardwareApi.retrieve]
  simp only [get_object_or_404, hf]
  cases hd : (update_asset_hardware_info_manual asset).2.dark.isEmpty <;>
    simp [hd, Except.bind, bind, pure, Except.pure]

/-- Witness for C4: a failing probe answers 501 with the dark values, a
clean probe answers 200 with `{"msg": "ok"}`. -/
theorem C4_witness :
    AssetRefreshHardwareApi.retrieve exDB
        (fun _ => ((), ⟨[("host", "failed")]⟩)) 7 =
      Except.ok ⟨RespBody.darkValues ["failed"], 501⟩ ∧
    AssetRefreshHardwareApi.retrieve exDB (fun _ => ((), ⟨[]⟩)) 7 =
      Except.ok ⟨RespBody.msgOk, 200⟩ := by
  constructor
  · have h := C4_refresh_hardware exDB
      (fun _ => ((), ⟨[("host", "failed")]⟩)) 7 exAsset7 (by decide)
    simpa using h
  · have h := C4_refresh_hardware exDB (fun _ => ((), ⟨[]⟩)) 7 exAsset7
      (by decide)
    simpa using h

/-- C5: for every asset found by pk, `AssetAdminUserTestApi.retrieve`
delegates to the connectivity test and answers `{"msg": "pong"}` with
status 200 exactly when the operation reports success, and `{"error": msg}`
with status 502 (msg being the operation's message) exactly when it reports
failure. -/
theorem C5_connectivity_test (db : DB)
    (test_asset_connectability_manual : Asset → Bool × String)
    (pk : Nat) (asset : Asset)
    (hf : (db.assets.find? fun a => a.id == pk) = some asset) :
    AssetAdminUserTestApi.retrieve db test_asset_connectability_manual pk =
      Except.ok
        (if (test_asset_connectability_manual asset).1 then
           ⟨RespBody.msgPong, 200⟩
         else
           ⟨RespBody.errorMsg (test_asset_connectability_manual asset).2,
            502⟩) := by
  rw [AssetAdminUserTestApi.retrieve]
  simp only [get_object_or_404, hf]
  cases ht : (test_asset_connectability_manual asset).1 <;>
    simp [ht, Except.bind, bind, pure, Except.pure]

/-- Witness for C5: a succeeding test answers pong with 200, a failing one
answers the error message with 502. -/
theorem C5_witness :
    AssetAdminUserTestApi.retrieve exDB (fun _ => (true, "")) 7 =
      Except.ok ⟨RespBody.msgPong, 200⟩ ∧
    AssetAdminUserTestApi.retrieve exDB (fun _ => (false, "refused")) 7 =
      Except.ok ⟨RespBody.errorMsg "refused", 502⟩ := by
  constructor
  · have h := C5_connectivity_test exDB (fun _ => (true, "")) 7 exAsset7
      (by decide)
    simpa using h
  · have h := C5_connectivity_test exDB (fun _ => (false, "refused")) 7
      exAsset7 (by decide)
    simpa using h

/-- C6: each endpoint declares its permission class — superuser-or-app-user
for `AssetViewSet`, superuser for `AssetListUpdateApi`,
`AssetRefreshHardwareApi` and `AssetAdminUserTestApi`, and a valid user for
`UserAssetListView` — and the dispatch runs no handler for a caller that the
endpoint's class rejects. -/
theorem C6_permission_gating (u : User) (α : Type) (handler : Unit → α) :
    (AssetViewSet.permClass u = false →
      dispatch AssetViewSet.permClass handler u = none) ∧
    (AssetListUpdateApi.permClass u = false →
      dispatch AssetListUpdateApi.permClass handler u = none) ∧
    (AssetRefreshHardwareApi.permClass u = false →
      dispatch AssetRefreshHardwareApi.permClass handler u = none) ∧
    (AssetAdminUserTestApi.permClass u = false →
      dispatch AssetAdminUserTestApi.permClass handler u = none) ∧
    (UserAssetListView.permClass u = false →
      dispatch UserAssetListView.permClass handler u = none) ∧
    AssetViewSet.permClass u = (u.isSuperuser || u.isAppUser) ∧
    AssetListUpdateApi.permClass u = u.isSuperuser ∧
    AssetRefreshHardwareApi.permClass u = u.isSuperuser ∧
    AssetAdminUserTestApi.permClass u = u.isSuperuser ∧
    UserAssetListView.permClass u = u.isValid := by
  refine ⟨fun h => ?_, fun h => ?_, fun h => ?_, fun h => ?_, fun h => ?_,
    rfl, rfl, rfl, rfl, rfl⟩ <;> simp [dispatch, h]

/-- Witness for C6: a user that is neither superuser, app user nor valid
reaches no handler on any endpoint. -/
theorem C6_witness :
    dispatch AssetViewSet.permClass (fun _ => (0 : Nat))
      ⟨false, false, false⟩ = none ∧
    dispatch AssetListUpdateApi.permClass (fun _ => (0 : Nat))
      ⟨false, false, false⟩ = none ∧
    dispatch AssetRefreshHardwareApi.permClass (fun _ => (0 : Nat))
      ⟨false, false, false⟩ = none ∧
    dispatch AssetAdminUserTestApi.permClass (fun _ => (0 : Nat))
      ⟨false, false, false⟩ = none ∧
    dispatch UserAssetListView.permClass (fun _ => (0 : Nat))
      ⟨false, false, false⟩ = none := by
  have h := C6_permission_gating ⟨false, false, false⟩ Nat (fun _ => 0)
  exact ⟨h.1 (by decide), h.2.1 (by decide), h.2.2.1 (by decide),
    h.2.2.2.1 (by decide), h.2.2.2.2.1 (by decide)⟩

/-- The request that supplies only the `cluster_id` parameter of `p`. -/
def onlyCluster (p : QueryParams) : QueryParams :=
  ⟨p.cluster_id, none, none, none, none⟩

/-- The request that supplies only the `asset_group_id` parameter of `p`. -/
def onlyGroup (p : QueryParams) : QueryParams :=
  ⟨none, p.asset_group_id, none, none, none⟩

/-- The request that supplies only the `admin_user_id` parameter of `p`. -/
def onlyAdmin (p : QueryParams) : QueryParams :=
  ⟨none, none, p.admin_user_id, none, none⟩

/-- The request that supplies only the `system_user_id` parameter of `p`. -/
def onlySystem (p : QueryParams) : QueryParams :=
  ⟨none, none, none, p.system_user_id, none⟩

/-- The request that supplies only the `node_id` parameter of `p`. -/
def onlyNode (p : QueryParams) : QueryParams :=
  ⟨none, none, none, none, p.node_id⟩

theorem condPred_onlyCluster (db : DB) (p : QueryParams) (a : Asset) :
    condPred db (onlyCluster p) a = clusterCond p a := by
  simp [condPred, onlyCluster, clusterCond, groupCond, adminCond, systemCond,
    nodeCond]

theorem condPred_onlyGroup (db : DB) (p : QueryParams) (a : Asset) :
    condPred db (onlyGroup p) a = groupCond p a := by
  simp [condPred, onlyGroup, clusterCond, groupCond, adminCond, systemCond,
    nodeCond]

theorem condPred_onlyAdmin (db : DB) (p : QueryParams) (a : Asset) :
    condPred db (onlyAdmin p) a = adminCond db p a := by
  simp [condPred, onlyAdmin, clusterCond, groupCond, adminCond, systemCond,
    nodeCond]

theorem condPred_onlySystem (db : DB) (p : QueryParams) (a : Asset) :
    condPred db (onlySystem p) a = systemCond db p a := by
  simp [condPred, onlySystem, clusterCond, groupCond, adminCond, systemCond,
    nodeCond]

theorem condPred_onlyNode (db : DB) (p : QueryParams) (a : Asset) :
    condPred db (onlyNode p) a = nodeCond db p a := by
  simp [condPred, onlyNode, clusterCond, groupCond, adminCond, systemCond,
    nodeCond]

/-- C9: the filters compose conjunctively: for a request whose lookups
succeed, the result of `get_queryset` is exactly the intersection of the
results each parameter would produce supplied alone (absent parameters
contributing the base queryset), independent of any ordering. -/
theorem C9_conjunctive_composition (db : DB) (p : QueryParams)
    (h : lookupsOk db p = true) :
    ∃ l l1 l2 l3 l4 l5,
      AssetViewSet.get_queryset db p = Except.ok l ∧
      AssetViewSet.get_queryset db (onlyCluster p) = Except.ok l1 ∧
      AssetViewSet.get_queryset db (onlyGroup p) = Except.ok l2 ∧
      AssetViewSet.get_queryset db (onlyAdmin p) = Except.ok l3 ∧
      AssetViewSet.get_queryset db (onlySystem p) = Except.ok l4 ∧
      AssetViewSet.get_queryset db (onlyNode p) = Except.ok l5 ∧
      ∀ a : Asset, a ∈ l ↔
        a ∈ l1 ∧ a ∈ l2 ∧ a ∈ l3 ∧ a ∈ l4 ∧ a ∈ l5 := by
  simp only [lookupsOk, Bool.and_eq_true] at h
  obtain ⟨⟨hA, hS⟩, hN⟩ := h
  have hl : lookupsOk db p = true := by
    simp [lookupsOk, hA, hS, hN]
  have hl1 : lookupsOk db (onlyCluster p) = true := by
    simp [lookupsOk, onlyCluster, Option.all]
  have hl2 : lookupsOk db (onlyGroup p) = true := by
    simp [lookupsOk, onlyGroup, Option.all]
  have hl3 : lookupsOk db (onlyAdmin p) = true := by
    simp only [lookupsOk, onlyAdmin, Option.all] at hA ⊢
    simp [hA]
  have hl4 : lookupsOk db (onlySystem p) = true := by
    simp only [lookupsOk, onlySystem, Option.all] at hS ⊢
    simp [hS]
  have hl5 : lookupsOk db (onlyNode p) = true := by
    simp only [lookupsOk, onlyNode, Option.all] at hN ⊢
    simp [hN]
  refine ⟨db.assets.filter (fun a => condPred db p a),
    db.assets.filter (fun a => condPred db (onlyCluster p) a),
    db.assets.filter (fun a => condPred db (onlyGroup p) a),
    db.assets.filter (fun a => condPred db (onlyAdmin p) a),
    db.assets.filter (fun a => condPred db (onlySystem p) a),
    db.assets.filter (fun a => condPred db (onlyNode p) a),
    by rw [get_queryset_spec, hl]; rfl,
    by rw [get_queryset_spec, hl1]; rfl,
    by rw [get_queryset_spec, hl2]; rfl,
    by rw [get_queryset_spec, hl3]; rfl,
    by rw [get_queryset_spec, hl4]; rfl,
    by rw [get_queryset_spec, hl5]; rfl,
    ?_⟩
  intro a
  simp only [List.mem_filter, condPred_onlyCluster, condPred_onlyGroup,
    condPred_onlyAdmin, condPred_onlySystem, condPred_onlyNode, condPred,
    Bool.and_eq_true]
  tauto

/-- Witness for C9 at the fixture database with all parameters supplied. -/
theorem C9_witness :
    ∃ l l1 l2 l3 l4 l5,
      AssetViewSet.get_queryset exDB exPAll = Except.ok l ∧
      AssetViewSet.get_queryset exDB (onlyCluster exPAll) = Except.ok l1 ∧
      AssetViewSet.get_queryset exDB (onlyGroup exPAll) = Except.ok l2 ∧
      AssetViewSet.get_queryset exDB (onlyAdmin exPAll) = Except.ok l3 ∧
      AssetViewSet.get_queryset exDB (onlySystem exPAll) = Except.ok l4 ∧
      AssetViewSet.get_queryset exDB (onlyNode exPAll) = Except.ok l5 ∧
      ∀ a : Asset, a ∈ l ↔
        a ∈ l1 ∧ a ∈ l2 ∧ a ∈ l3 ∧ a ∈ l4 ∧ a ∈ l5 :=
  C9_conjunctive_composition exDB exPAll (by decide)

/-- C10: a supplied identifier naming no record makes the request fail with
`Http404`: any failing lookup makes `get_queryset` raise rather than return
an empty result, and an unknown asset pk makes either retrieve endpoint
raise without invoking its background operation (the outcome is `Http404`
for every possible operation). -/
theorem C10_missing_records (db : DB) (p : QueryParams) (pk : Nat) :
    (lookupsOk db p = false →
      AssetViewSet.get_queryset db p = Except.error HttpErr.http404) ∧
    ((db.assets.find? fun a => a.id == pk) = none →
      (∀ task : Asset → Unit × Summary,
        AssetRefreshHardwareApi.retrieve db task pk =
          Except.error HttpErr.http404) ∧
      (∀ task : Asset → Bool × String,
        AssetAdminUserTestApi.retrieve db task pk =
          Except.error HttpErr.http404)) := by
  refine ⟨fun h => ?_, fun h => ⟨fun task => ?_, fun task => ?_⟩⟩
  · rw [get_queryset_spec, h]
    simp
  · rw [AssetRefreshHardwareApi.retrieve]
    simp [get_object_or_404, h, Except.bind, bind]
  · rw [AssetAdminUserTestApi.retrieve]
    simp [get_object_or_404, h, Except.bind, bind]

/-- Witness for C10: admin user 99 and asset pk 99 do not exist in the
fixture database. -/
theorem C10_witness :
    AssetViewSet.get_queryset exDB ⟨none, none, some 99, none, none⟩ =
      Except.error HttpErr.http404 ∧
    AssetRefreshHardwareApi.retrieve exDB (fun _ => ((), ⟨[]⟩)) 99 =
      Except.error HttpErr.http404 ∧
    AssetAdminUserTestApi.retrieve exDB (fun _ => (true, "")) 99 =
      Except.error HttpErr.http404 := by
  have h := C10_missing_records exDB ⟨none, none, some 99, none, none⟩ 99
  exact ⟨h.1 (by decide), (h.2 (by decide)).1 _, (h.2 (by decide)).2 _⟩

end AssetApi
